import Mathlib

/-!
Verification of the BottleSaml SAML2 service-provider core against its
specification.  The development shallowly embeds the Python sources
`SamlSP.py`, `SamlAuth.py` and `reqID.py`:

* Python values that flow through sessions and attribute maps become the
  inductive `PyVal`; Python `==` becomes the structural `pyEq`, and Python
  dicts become insertion-ordered association lists with `dictLookup`,
  `dictInsert` and `dictUpdate` (matching dict key lookup, item assignment
  and `dict.update`).
* Fallible Python code (try/except blocks) returns `Except`/`Option`
  values; the catch-all `except:` handlers are explicit matches.
* The external collaborators that the spec puts out of scope (the Fernet
  authenticated-encryption scheme of the `cryptography` package and
  minisaml's `validate_response` / `get_request_redirect_url`) are
  universally quantified parameters; claims about them enter only as
  hypotheses on those parameters.
-/

/-- Python runtime values as they occur in sessions, attribute maps and
configuration: `None`, strings, integers, lists and string-keyed dicts. -/
inductive PyVal where
  | pynone
  | str (s : String)
  | int (n : Int)
  | list (l : List PyVal)
  | dict (d : List (String × PyVal))
  deriving Repr

mutual

/-- Python `==` on `PyVal` (structural equality, as used by `in`). -/
def pyEq : PyVal → PyVal → Bool
  | PyVal.pynone, PyVal.pynone => true
  | PyVal.str a, PyVal.str b => a == b
  | PyVal.int a, PyVal.int b => a == b
  | PyVal.list a, PyVal.list b => pyEqList a b
  | PyVal.dict a, PyVal.dict b => pyEqDict a b
  | _, _ => false

/-- Python `==` on lists: pointwise equality of equal-length lists. -/
def pyEqList : List PyVal → List PyVal → Bool
  | [], [] => true
  | a :: as, b :: bs => pyEq a b && pyEqList as bs
  | _, _ => false

/-- Equality on dict entry lists.  (Python dict `==` is order-insensitive;
the code under verification never compares dicts, so the insertion-ordered
structural version suffices for the embedding.) -/
def pyEqDict : List (String × PyVal) → List (String × PyVal) → Bool
  | [], [] => true
  | (k1, v1) :: as, (k2, v2) :: bs => k1 == k2 && pyEq v1 v2 && pyEqDict as bs
  | _, _ => false

end

/-- Python truthiness of a `PyVal` (`bool(v)`). -/
def pyTruthy : PyVal → Bool
  | PyVal.pynone => false
  | PyVal.str s => s ≠ ""
  | PyVal.int n => n ≠ 0
  | PyVal.list l => !l.isEmpty
  | PyVal.dict d => !d.isEmpty

/-- Dict key lookup `d[k]` / `k in d` over an insertion-ordered entry list:
returns the value of the first entry whose key is `k`. -/
def dictLookup {α : Type} (k : String) : List (String × α) → Option α
  | [] => Option.none
  | (k2, v) :: rest => if k2 = k then some v else dictLookup k rest

/-- Dict item assignment `d[k] = v`: replaces the value in place when the
key exists, else appends the new entry (Python dicts keep insertion order). -/
def dictInsert {α : Type} (k : String) (v : α) : List (String × α) → List (String × α)
  | [] => [(k, v)]
  | (k2, v2) :: rest =>
    if k2 = k then (k2, v) :: rest else (k2, v2) :: dictInsert k v rest

/-- Python `d.update(u)`: item-assign every entry of `u` into `d` in order. -/
def dictUpdate {α : Type} (d u : List (String × α)) : List (String × α) :=
  u.foldl (fun acc kv => dictInsert kv.1 kv.2 acc) d

/-- Subscript `v[k]` with a string key: succeeds only on dicts holding the
key; `Option.none` models the `KeyError`/`TypeError` raised otherwise. -/
def pyGetItem (v : PyVal) (k : String) : Option PyVal :=
  match v with
  | PyVal.dict d => dictLookup k d
  | _ => Option.none

/-- Interpreting a value as a list of candidate values: a Python list is
itself, any scalar counts as a one-element list (`SamlAuth.test_attrs`). -/
def pyAsList (v : PyVal) : List PyVal :=
  match v with
  | PyVal.list l => l
  | v => [v]

/-- `SamlAuth.test_attrs(challenge, standard)`: true iff at least one item
of the challenge list is `==`-equal to an item of the standard list, each
scalar counting as a one-element list. -/
def test_attrs (challenge standard : PyVal) : Bool :=
  (pyAsList challenge).any (fun chal => (pyAsList standard).any (fun s => pyEq s chal))

/-- A session is an insertion-ordered dict of Python values
(`request.session` provided by BottleSessions). -/
abbrev Session := List (String × PyVal)

/-- Body of the `try:` block of `SamlSP.is_authenticated`: evaluates
`sess['username'] and sess['attributes']['_saml']['expires'] >= int(time.time())`;
`Except.error ()` models any exception (missing key, non-dict subscript,
or an `>=` comparison between an int and a non-int). -/
def is_authenticated_body (sess : Session) (now : Int) : Except Unit Bool :=
  match dictLookup "username" sess with
  | Option.none => Except.error ()
  | some u =>
    if pyTruthy u then
      match dictLookup "attributes" sess with
      | Option.none => Except.error ()
      | some attrs =>
        match pyGetItem attrs "_saml" with
        | Option.none => Except.error ()
        | some saml =>
          match pyGetItem saml "expires" with
          | Option.none => Except.error ()
          | some (PyVal.int e) => Except.ok (decide (e ≥ now))
          | some _ => Except.error ()
    else
      Except.ok false

/-- `SamlSP.is_authenticated` (property): the `try:` body with the bare
`except:` clause turning every exception into `False`. -/
def is_authenticated (sess : Session) (now : Int) : Bool :=
  match is_authenticated_body sess now with
  | Except.ok b => b
  | Except.error _ => false

example :
    is_authenticated
      [("username", PyVal.str "alice"),
       ("attributes", PyVal.dict [("_saml", PyVal.dict [("expires", PyVal.int 100)])])] 99 = true := rfl

example : is_authenticated [("username", PyVal.str "alice")] 99 = false := rfl

/-- URL-safe base64 alphabet used by Fernet tokens (RFC 4648 `base64url`). -/
def b64chars : List Char :=
  ['A', 'B', 'C', 'D', 'E', 'F', 'G', 'H', 'I', 'J', 'K', 'L', 'M',
   'N', 'O', 'P', 'Q', 'R', 'S', 'T', 'U', 'V', 'W', 'X', 'Y', 'Z',
   'a', 'b', 'c', 'd', 'e', 'f', 'g', 'h', 'i', 'j', 'k', 'l', 'm',
   'n', 'o', 'p', 'q', 'r', 's', 't', 'u', 'v', 'w', 'x', 'y', 'z',
   '0', '1', '2', '3', '4', '5', '6', '7', '8', '9', '-', '_']

/-- Character for a 6-bit group. -/
def encChar (n : Nat) : Char := b64chars.getD n 'A'

/-- URL-safe base64 encoding with `'='` padding of a byte sequence, as
produced by `base64.urlsafe_b64encode` on the Fernet token bytes. -/
def b64encode : List Nat → List Char
  | [] => []
  | [a] => [encChar (a / 4), encChar (a % 4 * 16), '=', '=']
  | [a, b] => [encChar (a / 4), encChar (a % 4 * 16 + b / 16), encChar (b % 16 * 4), '=']
  | a :: b :: c :: rest =>
    encChar (a / 4) :: encChar (a % 4 * 16 + b / 16) ::
      encChar (b % 16 * 4 + c / 64) :: encChar (c % 64) :: b64encode rest

/-- Python `s.find(c)`: index of the first occurrence, `-1` when absent. -/
def pyStrFind (s : String) (c : Char) : Int :=
  match s.data.findIdx? (fun x => x == c) with
  | some i => (i : Int)
  | Option.none => -1

/-- Python slice `s[:n]`, including the negative-index convention. -/
def pySliceTo (s : String) (n : Int) : String :=
  if 0 ≤ n then String.mk (s.data.take n.toNat)
  else String.mk (s.data.take (s.data.length - (-n).toNat))

/-- Python `s.startswith(pre)`. -/
def pyStartsWith (s pre : String) : Bool := pre.data.isPrefixOf s.data

/-- Python slice `s[n:]` for a nonnegative index. -/
def pyDrop (s : String) (n : Nat) : String := String.mk (s.data.drop n)

/-- UTF-8 bytes of `'ReqID'.encode('utf-8')`, the fixed plaintext bound
into every strict-mode request token (`ReqID.__init__`, `id='ReqID'`). -/
def reqIDBytes : List Nat := [82, 101, 113, 73, 68]

/-- Abstract model of the process-wide `Fernet(self.key)` collaborator of
`reqID.py` (the `cryptography` package, external to the repository):
`tokenBytes` are the raw authenticated-encryption token bytes produced by
`f.encrypt(self.id)` at mint time, and `decrypt s ttl` is
`f.decrypt(s.encode('utf-8'), ttl)`, with `Option.none` modelling the
`InvalidToken` exception (bad base64, bad MAC, or TTL exceeded). -/
structure FernetModel where
  tokenBytes : List Nat
  decrypt : String → Nat → Option (List Nat)

/-- The token string `self.f.encrypt(self.id).decode()`. -/
def fernetTokenStr (F : FernetModel) : String := String.mk (b64encode F.tokenBytes)

/-- `ReqID.__noidp_new_requestID`: prepend `'Id'` and cut the string at its
first `'='` (dropping the base64 padding; `str.find` returns `-1`, hence
the slice drops the final character, when no `'='` occurs). -/
def noidp_new_requestID (F : FernetModel) : String :=
  let reqid := fernetTokenStr F
  "Id" ++ pySliceTo reqid (pyStrFind reqid '=')

/-- `ReqID.__noidp_validate_requestID`: checks the `'Id'` prefix, restores
base64 padding to a multiple of four, and authenticates/decrypts within
`ttl`; `dbg` is the module-level `DEBUG` flag (truthy `os.getenv('DEBUG')`)
whose `raise e` re-raises the caught exception, modelled as
`Except.error ()`. -/
def noidp_validate_requestID (dbg : Bool) (F : FernetModel) (ttl : Nat)
    (reqid : String) : Except Unit Bool :=
  if pyStartsWith reqid "Id" then
    let r := pyDrop reqid 2
    let r2 := r ++ String.mk (List.replicate (4 - r.length % 4) '=')
    match F.decrypt r2 ttl with
    | Option.none => if dbg then Except.error () else Except.ok false
    | some mess =>
      if !mess.isEmpty && mess == reqIDBytes then Except.ok true else Except.ok false
  else if dbg then Except.error () else Except.ok false

/-- Python `str.lower()` restricted to ASCII letters (the claim names the
configuration and assertions use): an upper-case ASCII letter (code 65-90)
maps to its lower-case counterpart, every other character is unchanged. -/
def pyLowerChar (c : Char) : Char :=
  if 65 ≤ c.toNat ∧ c.toNat ≤ 90 then Char.ofNat (c.toNat + 32) else c

/-- Python `s.lower()` on a string. -/
def pyLower (s : String) : String := String.mk (s.data.map pyLowerChar)

/-- The `[attr.lower() for attr in temp_attrs]` comprehension of
`SamlSP.__init__` (line 76): the configured allow-list lower-cased at
configuration load. -/
def lower_attrs (l : List String) : List String := l.map pyLower

/-- Static `SamlSP` configuration as read in `SamlSP.__init__`. -/
structure SamlCfg where
  saml_endpoint : String
  saml_audience : String
  saml_issuer : String
  force_reauth : Bool
  acs_url : String
  attr_uid : String
  saml_attrs : List String
  auth_duration : Int

/-- One named multi-valued claim of a validated assertion (minisaml's
`Attribute`). -/
structure SamlAttribute where
  name : String
  values : List String
  deriving DecidableEq, Repr

/-- A validated assertion as returned by minisaml's `validate_response`
(external collaborator; the core never re-verifies the signature). -/
structure SamlResponse where
  name_id : String
  in_response_to : String
  issuer : String
  audience : String
  attributes : List SamlAttribute

/-- Value stored for one collected claim (`SamlSP.__build_attrs_list`):
the scalar for exactly one value, the ordered list for several, `None`
for an empty claim. -/
def attrStoredValue (attr : SamlAttribute) : PyVal :=
  match attr.values with
  | [v] => PyVal.str v
  | [] => PyVal.pynone
  | vs => PyVal.list (vs.map PyVal.str)

/-- The claim-collection loop of `SamlSP.__build_attrs_list`: claims whose
name is in the (lower-cased) allow-list are stored, the rest are dropped. -/
def collect_attrs (cfg : SamlCfg) (resp : SamlResponse) : List (String × PyVal) :=
  resp.attributes.foldl
    (fun acc attr =>
      if attr.name ∈ cfg.saml_attrs then dictInsert attr.name (attrStoredValue attr) acc
      else acc)
    []

/-- The `_saml` metadata dict attached by `SamlSP.__build_attrs_list`. -/
def samlMeta (cfg : SamlCfg) (now : Int) (resp : SamlResponse) : PyVal :=
  PyVal.dict
    [("name_id", PyVal.str resp.name_id),
     ("request_id", PyVal.str resp.in_response_to),
     ("issuer", PyVal.str resp.issuer),
     ("audience", PyVal.str resp.audience),
     ("expires", PyVal.int (now + cfg.auth_duration))]

/-- `SamlSP.__build_attrs_list(username, saml_resp)`, the first login hook:
collects allow-listed claims, resolves the username from the configured
identity claim (falling back to the passed-in `name_id`), guarantees a
`username` entry, and attaches the `_saml` metadata with
`expires = now + auth_duration`. -/
def build_attrs_list (cfg : SamlCfg) (now : Int) (username : PyVal)
    (resp : SamlResponse) : PyVal × List (String × PyVal) :=
  let attrs := collect_attrs cfg resp
  let username :=
    match dictLookup cfg.attr_uid attrs with
    | some v => v
    | Option.none => username
  let attrs :=
    match dictLookup "username" attrs with
    | some _ => attrs
    | Option.none => dictInsert "username" username attrs
  let attrs := dictInsert "_saml" (samlMeta cfg now resp) attrs
  (username, attrs)

/-- A login hook appended with `add_login_hook`: maps `(username, attrs)`
to new values, `Option.none` modelling a raised exception. -/
abbrev LoginHook := PyVal → List (String × PyVal) → Option (PyVal × List (String × PyVal))

/-- Per-request environment of the ACS callback: the outcomes of the
external collaborators it consults.  `resp` is the result of minisaml's
`validate_response` (`Option.none` for any exception, including a missing
`SAMLResponse` form field); `reqid_ok` is `self.reqid.validate_requestID`;
`relay_next` is `relay_state['next'][0]` when present. -/
structure AcsEnv where
  resp : Option SamlResponse
  reqid_ok : String → Bool
  relay_next : Option String
  extra_hooks : List LoginHook
  now : Int

/-- Outcome of the ACS callback (the interpolated parts of the source's
f-string messages are elided; status codes follow `response_error`). -/
inductive AcsResult where
  | appError (msg : String)
  | badRequestError (msg : String)
  | conflictError (msg : String)
  | forbiddenError (msg : String)
  | redirect (url : String)
  deriving Repr

/-- HTTP status carried by each ACS outcome (`AppError`, `BadRequestError`
and `ConflictError` all map to 400 in the source). -/
def AcsResult.status : AcsResult → Nat
  | AcsResult.appError _ => 400
  | AcsResult.badRequestError _ => 400
  | AcsResult.conflictError _ => 400
  | AcsResult.forbiddenError _ => 403
  | AcsResult.redirect _ => 302

/-- Protocol steps of `finish_saml_login_work`, recorded in execution
order: assertion validation, correlation-id validation, issuer comparison,
and the login-hook run. -/
inductive AcsStep where
  | validateResponse
  | validateReqID
  | checkIssuer
  | runHooks
  deriving DecidableEq, Repr

/-- Runs the appended login hooks in order; the first exception
(`Option.none`) aborts the chain. -/
def run_extra_hooks : List LoginHook → PyVal → List (String × PyVal) →
    Option (PyVal × List (String × PyVal))
  | [], u, a => some (u, a)
  | h :: t, u, a =>
    match h u a with
    | Option.none => Option.none
    | some ua => run_extra_hooks t ua.1 ua.2

/-- The `for login_hook in self.login_hooks` loop: `__build_attrs_list` is
always the first hook (`SamlSP.__init__` installs it; it raises nothing in
the embedding), followed by the appended hooks. -/
def run_login_hooks (cfg : SamlCfg) (env : AcsEnv) (resp : SamlResponse) :
    Option (PyVal × List (String × PyVal)) :=
  let ua := build_attrs_list cfg env.now (PyVal.str resp.name_id) resp
  run_extra_hooks env.extra_hooks ua.1 ua.2

/-- `SamlSP.finish_saml_login_work(session)`, the ACS endpoint body:
returns the outcome, the final session, and the trace of protocol steps
that were performed. -/
def finish_saml_login_work (cfg : SamlCfg) (env : AcsEnv) (session : Session) :
    AcsResult × Session × List AcsStep :=
  if is_authenticated session env.now then
    (AcsResult.appError "ACS invoked for authenticated user", session, [])
  else
    match env.resp with
    | Option.none =>
      (AcsResult.badRequestError "SAML: response_validation failed", session,
        [AcsStep.validateResponse])
    | some resp =>
      if env.reqid_ok resp.in_response_to = false then
        (AcsResult.badRequestError "SAML: Invalid Request", session,
          [AcsStep.validateResponse, AcsStep.validateReqID])
      else if resp.issuer ≠ cfg.saml_issuer then
        (AcsResult.conflictError "SAML: Issuer mismatch", session,
          [AcsStep.validateResponse, AcsStep.validateReqID, AcsStep.checkIssuer])
      else
        match run_login_hooks cfg env resp with
        | Option.none =>
          (AcsResult.forbiddenError "SAML: login_hooks failed", [],
            [AcsStep.validateResponse, AcsStep.validateReqID, AcsStep.checkIssuer,
             AcsStep.runHooks])
        | some ua =>
          let session := dictInsert "username" ua.1 (dictInsert "attributes" (PyVal.dict ua.2) session)
          let url :=
            match env.relay_next with
            | some u => u
            | Option.none => "/"
          (AcsResult.redirect url, session,
            [AcsStep.validateResponse, AcsStep.validateReqID, AcsStep.checkIssuer,
             AcsStep.runHooks])

/-- UTF-8 encoding of one character. -/
def utf8Bytes (c : Char) : List Nat :=
  let n := c.toNat
  if n < 128 then [n]
  else if n < 2048 then [192 + n / 64, 128 + n % 64]
  else if n < 65536 then [224 + n / 4096, 128 + n / 64 % 64, 128 + n % 64]
  else [240 + n / 262144, 128 + n / 4096 % 64, 128 + n / 64 % 64, 128 + n % 64]

/-- Upper-case hexadecimal digit. -/
def hexDigit (n : Nat) : Char := "0123456789ABCDEF".data.getD n '0'

/-- `urllib.parse.quote_plus` on one character: ASCII alphanumerics and
`'_'`, `'.'`, `'-'`, `'~'` pass through, space becomes `'+'`, everything
else is percent-encoded byte by byte. -/
def quoteChar (c : Char) : List Char :=
  if c.isAlphanum || c = '_' || c = '.' || c = '-' || c = '~' then [c]
  else if c = ' ' then ['+']
  else (utf8Bytes c).foldr
    (fun b acc => '%' :: hexDigit (b / 16 % 16) :: hexDigit (b % 16) :: acc) []

/-- `urllib.parse.quote_plus` on a string. -/
def quote_plus (s : String) : String :=
  String.mk (s.data.foldr (fun c acc => quoteChar c ++ acc) [])

/-- `urllib.parse.urlencode(kwargs, doseq=True)` for string-valued pairs:
`k=v` fragments joined with `'&'`. -/
def urlencode : List (String × String) → String
  | [] => ""
  | [kv] => quote_plus kv.1 ++ "=" ++ quote_plus kv.2
  | kv :: rest => quote_plus kv.1 ++ "=" ++ quote_plus kv.2 ++ "&" ++ urlencode rest

/-- Python `c in s` for a character. -/
def pyContainsChar (s : String) (c : Char) : Bool := s.data.any (fun x => x == c)

/-- Result of one authorization check of `SamlAuth`
(`authz_required` / `authz_required_path` wrapper bodies):
pass on to the wrapped handler, respond with a denial, or raise. -/
inductive CheckRes where
  | pass
  | deny (status : Nat) (body : String)
  | exn
  deriving Repr

/-- The `for attr in req_attrs` loop shared by `authz_required` and
`authz_required_path`: for each required claim, `attr not in my_attrs or
not test_attrs(session['attributes'][attr], value)` returns the 401
`UnauthorizedError('Permission not granted')`; `item` is the
`session['attributes'][attr]` subscript (`CheckRes.exn` when it raises). -/
def authz_required_check (req : List (String × PyVal)) (mine : List (String × PyVal))
    (item : String → Option PyVal) : CheckRes :=
  match req with
  | [] => CheckRes.pass
  | (attr, value) :: rest =>
    if (dictLookup attr mine).isNone then CheckRes.deny 401 "Permission not granted"
    else
      match item attr with
      | Option.none => CheckRes.exn
      | some chal =>
        if test_attrs chal value then authz_required_check rest mine item
        else CheckRes.deny 401 "Permission not granted"

/-- Result of running a wrapped route handler: the underlying handler ran,
an HTTP response (status, `Location` header, body; the fixed no-cache
headers are elided), or an uncaught exception. -/
inductive Res where
  | handled
  | response (status : Nat) (location : Option String) (body : String)
  | exn
  deriving Repr

/-- Per-request context: the session, the current time, `request.url`, and
the request id minted by `reqid.new_requestID()` if a login is initiated. -/
structure Ctx where
  session : Session
  now : Int
  url : String
  reqid : String

/-- A (possibly wrapped) route handler. -/
abbrev Handler := Ctx → Res

/-- Abstract model of minisaml's `get_request_redirect_url(saml_endpoint,
expected_audience, acs_url, force_reauthentication, request_id,
relay_state)` (external collaborator). -/
abbrev UrlBuilder := String → String → String → Bool → String → Option String → String

/-- `SamlSP.my_attrs` (property): the session's attribute dict when
authenticated, else the `{'status': 'unauthenticated'}` sentinel.  (When
authenticated, `is_authenticated` already forced `session['attributes']`
to be a dict, so the fallback branch is unreachable.) -/
def my_attrs (ctx : Ctx) : List (String × PyVal) :=
  if is_authenticated ctx.session ctx.now then
    match dictLookup "attributes" ctx.session with
    | some (PyVal.dict d) => d
    | _ => []
  else [("status", PyVal.str "unauthenticated")]

/-- The `session['attributes'][attr]` subscript used inside the
authorization wrappers (`Option.none` models the raised
`KeyError`/`TypeError`). -/
def sess_attr_item (ctx : Ctx) (attr : String) : Option PyVal :=
  match dictLookup "attributes" ctx.session with
  | some v => pyGetItem v attr
  | Option.none => Option.none

/-- Route registration data read from `route.config`: the route rule
(path), the `authn` marker (`None`, `True` or `False`) and the `authz`
requirement map (`[]` both for an absent and for an empty, hence falsy,
map). -/
structure Route where
  rule : String
  authn : Option Bool
  authz : List (String × PyVal)

/-- `SamlAuth` plugin configuration. -/
structure AuthCfg where
  authn_all_routes : Bool
  authz_by_pfx : List (String × List (String × PyVal))

/-- Dispatch of a check result around a wrapped handler. -/
def checkResToRes (f : Handler) (ctx : Ctx) : CheckRes → Res
  | CheckRes.pass => f ctx
  | CheckRes.deny s b => Res.response s Option.none b
  | CheckRes.exn => Res.exn

/-- `SamlAuth.__apply_require_attrs`: wraps the handler in the
resource-scoped attribute check when the route declares a truthy `authz`
requirement. -/
def apply_require_attrs (route : Route) (f : Handler) : Handler :=
  if route.authz.isEmpty then f
  else fun ctx =>
    checkResToRes f ctx (authz_required_check route.authz (my_attrs ctx) (sess_attr_item ctx))

/-- The requirement map merged from all configured path prefixes matching
the route rule (`SamlAuth.__apply_prefix_attrs`); empty outside opt-out
mode. -/
def route_pfx_attrs (acfg : AuthCfg) (route : Route) : List (String × PyVal) :=
  if acfg.authn_all_routes then
    acfg.authz_by_pfx.foldl
      (fun acc pm => if pyStartsWith route.rule pm.1 then dictUpdate acc pm.2 else acc) []
  else []

/-- `SamlAuth.__apply_prefix_attrs`: wraps the handler in the
prefix-scoped attribute check when the merged requirement is nonempty. -/
def apply_pfx_attrs (acfg : AuthCfg) (route : Route) (f : Handler) : Handler :=
  let req := route_pfx_attrs acfg route
  if req.isEmpty then f
  else fun ctx =>
    checkResToRes f ctx (authz_required_check req (my_attrs ctx) (sess_attr_item ctx))

/-- `SamlSP.initiate_login`: mints nothing itself in the embedding (the
fresh `request_id` is passed in), encodes the keyword arguments as relay
state, asks the external `get_request_redirect_url` for the IdP URL,
optionally appends a `login_hint`, and returns the 302 redirect. -/
def initiate_login (G : UrlBuilder) (cfg : SamlCfg) (request_id : String)
    (force_reauth : Bool) (userhint : Option String)
    (relay : List (String × String)) : Res :=
  let relay_state := if relay.isEmpty then Option.none else some (urlencode relay)
  let url := G cfg.saml_endpoint cfg.saml_audience cfg.acs_url
      (cfg.force_reauth || force_reauth) request_id relay_state
  let url :=
    match userhint with
    | some hint => url ++ (if pyContainsChar url '?' then "&" else "?") ++ "login_hint=" ++ hint
    | Option.none => url
  Res.response 302 (some url) ""

/-- `SamlAuth.__apply_require_authn`: skipped when the route sets
`authn=False`; otherwise applied in opt-out mode, or in opt-in mode when
the route carries a truthy `authn` or `authz` marker.  The wrapper runs
the handler when authenticated and otherwise calls
`initiate_login(next=request.url)`. -/
def apply_require_authn (G : UrlBuilder) (cfg : SamlCfg) (acfg : AuthCfg)
    (route : Route) (f : Handler) : Handler :=
  if route.authn = some false then f
  else if acfg.authn_all_routes || route.authn = some true || !route.authz.isEmpty then
    fun ctx =>
      if is_authenticated ctx.session ctx.now then f ctx
      else initiate_login G cfg ctx.reqid false Option.none [("next", ctx.url)]
  else f

/-- `SamlAuth.apply`: folds the three checks over the handler in list
order, so `__apply_require_authn` ends up outermost ("the last shall be
first in the request path"). -/
def applyRoute (G : UrlBuilder) (cfg : SamlCfg) (acfg : AuthCfg)
    (route : Route) (f : Handler) : Handler :=
  apply_require_authn G cfg acfg route (apply_pfx_attrs acfg route (apply_require_attrs route f))

/-! Helper lemmas about the dict model and the value tests. -/

theorem dictLookup_dictInsert {α : Type} (k ki : String) (v : α) (d : List (String × α)) :
    dictLookup k (dictInsert ki v d) = if ki = k then some v else dictLookup k d := by
  induction d with
  | nil => simp [dictInsert, dictLookup]
  | cons hd tl ih =>
    obtain ⟨k3, v3⟩ := hd
    by_cases h3 : k3 = ki
    · subst h3
      by_cases hk : k3 = k <;> simp [dictInsert, dictLookup, hk]
    · by_cases hk : k3 = k
      · subst hk
        have hki : ¬ ki = k3 := fun h => h3 h.symm
        simp [dictInsert, dictLookup, h3, hki]
      · simp [dictInsert, dictLookup, h3, hk, ih]

theorem test_attrs_eq_true_iff (chal std : PyVal) :
    test_attrs chal std = true ↔
      ∃ c ∈ pyAsList chal, ∃ s ∈ pyAsList std, pyEq s c = true := by
  simp [test_attrs, List.any_eq_true]

/-- C1: for every requirement map and every session attribute map, the
attribute-requirement check of `SamlAuth` — run against an authenticated
session whose attribute map is `attrs`, so that `my_attrs` and
`session['attributes']` coincide — passes (the `CheckRes.pass` branch on
which `checkResToRes` runs the wrapped resource handler) iff every
required claim is present in the session attributes and at least one of
the session's values for it (a scalar counting as a one-element list) is
`==`-equal to one of the acceptable values (a scalar counting as a
one-element set); in every other case the check returns the 401 response
with body `Permission not granted`. -/
theorem C1_attr_requirement_check_iff (req attrs : List (String × PyVal)) :
    (authz_required_check req attrs (fun a => dictLookup a attrs) = CheckRes.pass ↔
      ∀ p ∈ req, ∃ v, dictLookup p.1 attrs = some v ∧
        ∃ c ∈ pyAsList v, ∃ s ∈ pyAsList p.2, pyEq s c = true) ∧
    (authz_required_check req attrs (fun a => dictLookup a attrs) = CheckRes.pass ∨
      authz_required_check req attrs (fun a => dictLookup a attrs) =
        CheckRes.deny 401 "Permission not granted") := by
  induction req with
  | nil => simp [authz_required_check]
  | cons p rest ih =>
    obtain ⟨attr, value⟩ := p
    cases h : dictLookup attr attrs with
    | none =>
      constructor
      · simp [authz_required_check, h]
      · right
        simp [authz_required_check, h]
    | some chal =>
      by_cases ht : test_attrs chal value = true
      · have hrec :
            authz_required_check ((attr, value) :: rest) attrs (fun a => dictLookup a attrs) =
              authz_required_check rest attrs (fun a => dictLookup a attrs) := by
          simp [authz_required_check, h, ht]
        rw [hrec]
        refine ⟨?_, ih.2⟩
        rw [ih.1]
        constructor
        · intro hall
          intro p hp
          rcases List.mem_cons.mp hp with hp | hp
          · subst hp
            exact ⟨chal, h, (test_attrs_eq_true_iff chal value).mp ht⟩
          · exact hall p hp
        · intro hall p hp
          exact hall p (List.mem_cons_of_mem _ hp)
      · have hden :
            authz_required_check ((attr, value) :: rest) attrs (fun a => dictLookup a attrs) =
              CheckRes.deny 401 "Permission not granted" := by
          simp [authz_required_check, h, ht]
        rw [hden]
        constructor
        · constructor
          · intro hcon
            exact absurd hcon (by simp)
          · intro hall
            rcases hall (attr, value) (List.mem_cons_self _ _) with ⟨v, hv, hmatch⟩
            rw [h] at hv
            cases hv
            exact absurd ((test_attrs_eq_true_iff chal value).mpr hmatch) ht
        · right
          rfl

/-- C2 counterexample: with `_saml.expires` equal to the current time the
source's `>=` comparison authenticates the session even though the expiry
timestamp is not in the future, refuting the claim's strict reading. -/
theorem C2_counterexample :
    is_authenticated
      [("username", PyVal.str "alice"),
       ("attributes", PyVal.dict [("_saml", PyVal.dict [("expires", PyVal.int 100)])])]
      100 = true ∧
    ¬ (100 : Int) > (100 : Int) := ⟨rfl, by omega⟩

/-- C2 (amended): `is_authenticated` returns true iff the session has a
truthy `username` and `attributes._saml.expires` is an integer that is not
earlier than the current time (`expires >= int(time.time())`, so an expiry
equal to the current second still authenticates); every other session
state — missing keys, non-dict values, a non-integer expiry, an elapsed
timestamp — yields false, the bare `except:` clause swallowing every
structural error (`is_authenticated_body` never leaks its
`Except.error`). -/
theorem C2_is_authenticated_iff (sess : Session) (now : Int) :
    is_authenticated sess now = true ↔
      (∃ u, dictLookup "username" sess = some u ∧ pyTruthy u = true) ∧
      (∃ attrs saml e, dictLookup "attributes" sess = some attrs ∧
        pyGetItem attrs "_saml" = some saml ∧
        pyGetItem saml "expires" = some (PyVal.int e) ∧ now ≤ e) := by
  unfold is_authenticated is_authenticated_body
  cases h1 : dictLookup "username" sess with
  | none => simp
  | some u =>
    by_cases hu : pyTruthy u = true
    · simp only [hu, if_true]
      cases h2 : dictLookup "attributes" sess with
      | none => simp [hu]
      | some attrs =>
        cases h3 : pyGetItem attrs "_saml" with
        | none => simp [h3, hu]
        | some saml =>
          cases h4 : pyGetItem saml "expires" with
          | none => simp [h3, h4, hu]
          | some e =>
            cases e <;> simp [h3, h4, hu]
    · simp [hu]

/-- C7: when the ACS callback is entered by an already-authenticated
session, it returns the protocol-state `AppError` (a 400 client error)
with the session untouched and the step trace empty: none of assertion
validation, correlation-id validation, issuer comparison or attribute
extraction is performed and the session is not mutated. -/
theorem C7_acs_rejects_authenticated (cfg : SamlCfg) (env : AcsEnv) (session : Session)
    (h : is_authenticated session env.now = true) :
    finish_saml_login_work cfg env session =
      (AcsResult.appError "ACS invoked for authenticated user", session, []) ∧
    (finish_saml_login_work cfg env session).1.status = 400 := by
  have he : finish_saml_login_work cfg env session =
      (AcsResult.appError "ACS invoked for authenticated user", session, []) := by
    simp [finish_saml_login_work, h]
  exact ⟨he, by rw [he]; rfl⟩

/-- C8: when a login hook raises while building the session attributes
(after the response validated, the correlation id checked out and the
issuer matched), the ACS callback clears the session and returns the 403
`ForbiddenError`; the resulting session holds neither a username nor
attributes. -/
theorem C8_hook_failure_clears_session (cfg : SamlCfg) (env : AcsEnv) (session : Session)
    (resp : SamlResponse)
    (hauth : is_authenticated session env.now = false)
    (hresp : env.resp = some resp)
    (hreq : env.reqid_ok resp.in_response_to = true)
    (hiss : resp.issuer = cfg.saml_issuer)
    (hhook : run_login_hooks cfg env resp = Option.none) :
    finish_saml_login_work cfg env session =
      (AcsResult.forbiddenError "SAML: login_hooks failed", ([] : Session),
       [AcsStep.validateResponse, AcsStep.validateReqID, AcsStep.checkIssuer,
        AcsStep.runHooks]) ∧
    (finish_saml_login_work cfg env session).1.status = 403 ∧
    dictLookup "username" (finish_saml_login_work cfg env session).2.1 = Option.none ∧
    dictLookup "attributes" (finish_saml_login_work cfg env session).2.1 = Option.none := by
  have he : finish_saml_login_work cfg env session =
      (AcsResult.forbiddenError "SAML: login_hooks failed", ([] : Session),
       [AcsStep.validateResponse, AcsStep.validateReqID, AcsStep.checkIssuer,
        AcsStep.runHooks]) := by
    simp [finish_saml_login_work, hauth, hresp, hreq, hiss, hhook]
  refine ⟨he, ?_, ?_, ?_⟩ <;> rw [he] <;> rfl

/-! Concrete fixtures shared by the witness theorems. -/

/-- A concrete service-provider configuration. -/
def cfgEx : SamlCfg :=
  { saml_endpoint := "https://idp.example.com/sso"
    saml_audience := "https://sp.example.com"
    saml_issuer := "https://idp.example.com"
    force_reauth := false
    acs_url := "https://sp.example.com/saml/acs"
    attr_uid := "uid"
    saml_attrs := ["uid", "role"]
    auth_duration := 3600 }

/-- A concrete validated assertion. -/
def respEx : SamlResponse :=
  { name_id := "alice@example.com"
    in_response_to := "IdXYZ"
    issuer := "https://idp.example.com"
    audience := "https://sp.example.com"
    attributes := [⟨"uid", ["alice"]⟩, ⟨"role", ["user", "admin"]⟩] }

/-- A session that is authenticated at time 999 (expiry 1000). -/
def sessAuthEx : Session :=
  [("username", PyVal.str "alice"),
   ("attributes", PyVal.dict [("_saml", PyVal.dict [("expires", PyVal.int 1000)])])]

/-- ACS environment: successful validation, valid request id, no hooks. -/
def envAuthEx : AcsEnv :=
  { resp := some respEx
    reqid_ok := fun _ => true
    relay_next := Option.none
    extra_hooks := []
    now := 999 }

/-- ACS environment whose single appended login hook raises. -/
def envHookFailEx : AcsEnv :=
  { resp := some respEx
    reqid_ok := fun _ => true
    relay_next := Option.none
    extra_hooks := [fun _ _ => Option.none]
    now := 999 }

theorem C7_acs_rejects_authenticated_witness :
    finish_saml_login_work cfgEx envAuthEx sessAuthEx =
      (AcsResult.appError "ACS invoked for authenticated user", sessAuthEx, []) :=
  (C7_acs_rejects_authenticated cfgEx envAuthEx sessAuthEx rfl).1

theorem C8_hook_failure_clears_session_witness :
    finish_saml_login_work cfgEx envHookFailEx [] =
      (AcsResult.forbiddenError "SAML: login_hooks failed", ([] : Session),
       [AcsStep.validateResponse, AcsStep.validateReqID, AcsStep.checkIssuer,
        AcsStep.runHooks]) :=
  (C8_hook_failure_clears_session cfgEx envHookFailEx [] respEx rfl rfl rfl rfl rfl).1

/-! Lemmas about the keys produced by the extraction pipeline. -/

theorem dictLookup_collect_aux (cfg : SamlCfg) (l : List SamlAttribute)
    (acc : List (String × PyVal)) (k : String)
    (h : (dictLookup k (l.foldl (fun acc attr =>
        if attr.name ∈ cfg.saml_attrs then dictInsert attr.name (attrStoredValue attr) acc
        else acc) acc)).isSome = true) :
    (dictLookup k acc).isSome = true ∨ k ∈ cfg.saml_attrs := by
  induction l generalizing acc with
  | nil => exact Or.inl h
  | cons a t ih =>
    simp only [List.foldl_cons] at h
    rcases ih _ h with hin | hmem
    · by_cases ha : a.name ∈ cfg.saml_attrs
      · rw [if_pos ha, dictLookup_dictInsert] at hin
        by_cases hak : a.name = k
        · right
          rw [← hak]
          exact ha
        · rw [if_neg hak] at hin
          exact Or.inl hin
      · rw [if_neg ha] at hin
        exact Or.inl hin
    · exact Or.inr hmem

theorem dictLookup_collect_attrs (cfg : SamlCfg) (resp : SamlResponse) (k : String)
    (h : (dictLookup k (collect_attrs cfg resp)).isSome = true) : k ∈ cfg.saml_attrs := by
  rcases dictLookup_collect_aux cfg resp.attributes [] k h with hin | hmem
  · simp [dictLookup] at hin
  · exact hmem

theorem build_attrs_key_mem (cfg : SamlCfg) (now : Int) (u : PyVal) (resp : SamlResponse)
    (k : String)
    (h : (dictLookup k (build_attrs_list cfg now u resp).2).isSome = true) :
    k ∈ cfg.saml_attrs ∨ k = "username" ∨ k = "_saml" := by
  by_cases hks : k = "_saml"
  · exact Or.inr (Or.inr hks)
  by_cases hku : k = "username"
  · exact Or.inr (Or.inl hku)
  left
  simp only [build_attrs_list] at h
  rw [dictLookup_dictInsert, if_neg (fun hh => hks hh.symm)] at h
  cases hc : dictLookup "username" (collect_attrs cfg resp) with
  | none =>
    rw [hc] at h
    rw [dictLookup_dictInsert, if_neg (fun hh => hku hh.symm)] at h
    exact dictLookup_collect_attrs cfg resp k h
  | some w =>
    rw [hc] at h
    exact dictLookup_collect_attrs cfg resp k h

/-- C5: for every validated assertion, the first login hook returns the
value of the configured identity claim as username whenever that claim
name occurs in the collected attribute set, and the assertion's subject
identifier (`name_id`) otherwise; the returned attribute map always holds
a `username` entry; and the attached `_saml` metadata's expiry equals
`now + auth_duration`, which is strictly later than the extraction time
for a positive configured duration. -/
theorem C5_extraction_username_and_expiry (cfg : SamlCfg) (now : Int) (resp : SamlResponse)
    (hd : 0 < cfg.auth_duration) :
    (build_attrs_list cfg now (PyVal.str resp.name_id) resp).1 =
      (match dictLookup cfg.attr_uid (collect_attrs cfg resp) with
       | some v => v
       | Option.none => PyVal.str resp.name_id) ∧
    (dictLookup "username" (build_attrs_list cfg now (PyVal.str resp.name_id) resp).2).isSome
      = true ∧
    (∃ m, dictLookup "_saml" (build_attrs_list cfg now (PyVal.str resp.name_id) resp).2 = some m ∧
      pyGetItem m "expires" = some (PyVal.int (now + cfg.auth_duration))) ∧
    now < now + cfg.auth_duration := by
  refine ⟨rfl, ?_, ?_, by omega⟩
  · simp only [build_attrs_list]
    cases hu : dictLookup "username" (collect_attrs cfg resp) with
    | none => simp [dictLookup_dictInsert, hu]
    | some w => simp [dictLookup_dictInsert, hu]
  · refine ⟨samlMeta cfg now resp, ?_, ?_⟩
    · simp only [build_attrs_list]
      rw [dictLookup_dictInsert, if_pos rfl]
    · simp [samlMeta, pyGetItem, dictLookup]

theorem C5_extraction_username_and_expiry_witness :
    (build_attrs_list cfgEx 500 (PyVal.str respEx.name_id) respEx).1 =
      (match dictLookup cfgEx.attr_uid (collect_attrs cfgEx respEx) with
       | some v => v
       | Option.none => PyVal.str respEx.name_id) ∧
    (dictLookup "username" (build_attrs_list cfgEx 500 (PyVal.str respEx.name_id) respEx).2).isSome
      = true ∧
    (∃ m, dictLookup "_saml" (build_attrs_list cfgEx 500 (PyVal.str respEx.name_id) respEx).2
        = some m ∧
      pyGetItem m "expires" = some (PyVal.int (500 + cfgEx.auth_duration))) ∧
    (500 : Int) < 500 + cfgEx.auth_duration :=
  C5_extraction_username_and_expiry cfgEx 500 respEx (by decide)

/-- C6: every key of the extracted attribute map other than `username` and
the reserved `_saml` metadata entry belongs to the configured allow-list
as lower-cased at load time, and every assertion claim whose name is
outside that allow-list is dropped (absent from the result). -/
theorem C6_allowlist_restriction (temp : List String) (cfg : SamlCfg)
    (hc : cfg.saml_attrs = lower_attrs temp)
    (now : Int) (u : PyVal) (resp : SamlResponse) :
    (∀ k, k ≠ "username" → k ≠ "_saml" →
      (dictLookup k (build_attrs_list cfg now u resp).2).isSome = true →
      k ∈ lower_attrs temp) ∧
    (∀ attr ∈ resp.attributes, attr.name ∉ lower_attrs temp →
      attr.name ≠ "username" → attr.name ≠ "_saml" →
      dictLookup attr.name (build_attrs_list cfg now u resp).2 = Option.none) := by
  constructor
  · intro k hk1 hk2 h
    rcases build_attrs_key_mem cfg now u resp k h with hm | hm | hm
    · rw [hc] at hm
      exact hm
    · exact absurd hm hk1
    · exact absurd hm hk2
  · intro attr hmem hnot h1 h2
    cases hl : dictLookup attr.name (build_attrs_list cfg now u resp).2 with
    | none => rfl
    | some v =>
      exfalso
      have hsome : (dictLookup attr.name (build_attrs_list cfg now u resp).2).isSome = true := by
        rw [hl]
        rfl
      rcases build_attrs_key_mem cfg now u resp attr.name hsome with hm | hm | hm
      · rw [hc] at hm
        exact hnot hm
      · exact h1 hm
      · exact h2 hm

/-- Assertion carrying claims outside the allow-list (`mail`) and with an
upper-case letter in the claim name (`Role`). -/
def respDropEx : SamlResponse :=
  { name_id := "alice@example.com"
    in_response_to := "IdXYZ"
    issuer := "https://idp.example.com"
    audience := "https://sp.example.com"
    attributes := [⟨"uid", ["alice"]⟩, ⟨"mail", ["alice@example.com"]⟩, ⟨"Role", ["admin"]⟩] }

theorem C6_allowlist_restriction_witness :
    dictLookup "mail" (build_attrs_list cfgEx 500 (PyVal.str "alice@example.com") respDropEx).2
      = Option.none :=
  (C6_allowlist_restriction ["uid", "role"] cfgEx (by decide) 500
      (PyVal.str "alice@example.com") respDropEx).2
    ⟨"mail", ["alice@example.com"]⟩ (by decide) (by decide) (by decide) (by decide)

/-! Lower-casing produces no upper-case ASCII letter, so a claim name
containing one can never occur in the lower-cased allow-list. -/

theorem pyLowerChar_not_upper (c : Char) :
    ¬(65 ≤ (pyLowerChar c).toNat ∧ (pyLowerChar c).toNat ≤ 90) := by
  unfold pyLowerChar
  by_cases h : 65 ≤ c.toNat ∧ c.toNat ≤ 90
  · rw [if_pos h]
    have hv : (c.toNat + 32).isValidChar := by
      constructor
      omega
    have ht : (Char.ofNat (c.toNat + 32)).toNat = c.toNat + 32 := by
      simp [Char.ofNat, hv]
      rfl
    rw [ht]
    omega
  · rw [if_neg h]
    exact h

theorem lower_attrs_no_upper (l : List String) (s : String) (hs : s ∈ lower_attrs l)
    (c : Char) (hc : c ∈ s.data) : ¬(65 ≤ c.toNat ∧ c.toNat ≤ 90) := by
  rcases List.mem_map.mp hs with ⟨t, _, rfl⟩
  have hc2 : c ∈ t.data.map pyLowerChar := hc
  rcases List.mem_map.mp hc2 with ⟨c0, _, rfl⟩
  exact pyLowerChar_not_upper c0

/-- C10: claim-name matching during extraction is case-sensitive against
the allow-list, which is lower-cased at configuration load: an assertion
claim whose name contains an upper-case ASCII letter is dropped by
`__build_attrs_list`, even when its lower-cased form appears in the
configured allow-list. -/
theorem C10_uppercase_claim_dropped (temp : List String) (cfg : SamlCfg)
    (hc : cfg.saml_attrs = lower_attrs temp) (now : Int) (u : PyVal) (resp : SamlResponse)
    (attr : SamlAttribute) (hmem : attr ∈ resp.attributes)
    (c : Char) (hcin : c ∈ attr.name.data) (hup : 65 ≤ c.toNat ∧ c.toNat ≤ 90)
    (hlow : pyLower attr.name ∈ lower_attrs temp) :
    dictLookup attr.name (build_attrs_list cfg now u resp).2 = Option.none := by
  cases hl : dictLookup attr.name (build_attrs_list cfg now u resp).2 with
  | none => rfl
  | some v =>
    exfalso
    have hsome : (dictLookup attr.name (build_attrs_list cfg now u resp).2).isSome = true := by
      rw [hl]
      rfl
    rcases build_attrs_key_mem cfg now u resp attr.name hsome with hm | hm | hm
    · rw [hc] at hm
      exact lower_attrs_no_upper temp attr.name hm c hcin hup
    · rw [hm] at hcin
      have hno : ∀ x ∈ "username".data, ¬(65 ≤ Char.toNat x ∧ Char.toNat x ≤ 90) := by decide
      exact hno c hcin hup
    · rw [hm] at hcin
      have hno : ∀ x ∈ "_saml".data, ¬(65 ≤ Char.toNat x ∧ Char.toNat x ≤ 90) := by decide
      exact hno c hcin hup

theorem C10_uppercase_claim_dropped_witness :
    dictLookup "Role" (build_attrs_list cfgEx 500 (PyVal.str "alice@example.com") respDropEx).2
      = Option.none :=
  C10_uppercase_claim_dropped ["uid", "role"] cfgEx (by decide) 500
    (PyVal.str "alice@example.com") respDropEx ⟨"Role", ["admin"]⟩ (by decide)
    'R' (by decide) (by decide) (by decide)

/-- C9: in opt-out mode (`authn_all_routes=True`), for every route that
has not explicitly disabled authentication (`authn=False`), the fully
composed pipeline answers a request from an unauthenticated session with
the 302 redirect of `initiate_login`: the `Location` is the IdP redirect
URL built by the external `get_request_redirect_url` from the configured
IdP endpoint, audience, ACS URL, the static force-reauth flag, the minted
request id, and a relay state encoding `next=<original request URL>`;
in particular the answer is never a 401 rejection. -/
theorem C9_optout_redirects_unauthenticated (G : UrlBuilder) (cfg : SamlCfg) (acfg : AuthCfg)
    (route : Route) (f : Handler) (ctx : Ctx)
    (hmode : acfg.authn_all_routes = true)
    (hnotdis : route.authn ≠ some false)
    (hunauth : is_authenticated ctx.session ctx.now = false) :
    applyRoute G cfg acfg route f ctx =
      Res.response 302
        (some (G cfg.saml_endpoint cfg.saml_audience cfg.acs_url cfg.force_reauth ctx.reqid
          (some (urlencode [("next", ctx.url)]))))
        "" ∧
    ∀ loc body, applyRoute G cfg acfg route f ctx ≠ Res.response 401 loc body := by
  have he : applyRoute G cfg acfg route f ctx =
      Res.response 302
        (some (G cfg.saml_endpoint cfg.saml_audience cfg.acs_url cfg.force_reauth ctx.reqid
          (some (urlencode [("next", ctx.url)]))))
        "" := by
    simp [applyRoute, apply_require_authn, hnotdis, hmode, hunauth, initiate_login]
  refine ⟨he, ?_⟩
  intro loc body
  rw [he]
  intro hcon
  cases hcon

/-- A concrete stand-in for minisaml's `get_request_redirect_url`. -/
def urlBuilderEx : UrlBuilder :=
  fun endpoint _ _ _ request_id relay_state =>
    endpoint ++ "?SAMLRequest=" ++ request_id ++
      (match relay_state with
       | some rs => "&RelayState=" ++ rs
       | Option.none => "")

/-- An unauthenticated request context for `/admin/page`. -/
def ctxEx : Ctx :=
  { session := []
    now := 500
    url := "https://sp.example.com/admin/page"
    reqid := "IdTOK" }

/-- A route with no explicit `authn`/`authz` configuration. -/
def routeEx : Route :=
  { rule := "/admin/page"
    authn := Option.none
    authz := [] }

/-- Opt-out plugin configuration with an `/admin` path requirement. -/
def acfgEx : AuthCfg :=
  { authn_all_routes := true
    authz_by_pfx := [("/admin", [("role", PyVal.str "admin")])] }

theorem C9_optout_redirects_unauthenticated_witness :
    applyRoute urlBuilderEx cfgEx acfgEx routeEx (fun _ => Res.handled) ctxEx =
      Res.response 302
        (some (urlBuilderEx cfgEx.saml_endpoint cfgEx.saml_audience cfgEx.acs_url
          cfgEx.force_reauth ctxEx.reqid (some (urlencode [("next", ctxEx.url)]))))
        "" :=
  (C9_optout_redirects_unauthenticated urlBuilderEx cfgEx acfgEx routeEx (fun _ => Res.handled)
      ctxEx rfl (by decide) rfl).1

/-! Structure of the base64 output: for a byte string whose length is not
a multiple of three, the encoding is a padding-free body followed by one
or two `'='` characters, and the body length determines the padding. -/

theorem encChar_ne_pad (n : Nat) : encChar n ≠ '=' := by
  unfold encChar
  by_cases h : n < b64chars.length
  · rw [List.getD_eq_getElem?_getD, List.getElem?_eq_getElem h]
    intro hcon
    have hm : b64chars[n] ∈ b64chars := List.getElem_mem h
    simp only [Option.getD_some] at hcon
    rw [hcon] at hm
    exact absurd hm (by decide)
  · rw [List.getD_eq_getElem?_getD, List.getElem?_eq_none (Nat.le_of_not_lt h)]
    decide

theorem b64encode_split : ∀ (bytes : List Nat), bytes.length % 3 ≠ 0 →
    ∃ body : List Char, b64encode bytes = body ++ List.replicate (3 - bytes.length % 3) '=' ∧
      (∀ ch ∈ body, ch ≠ '=') ∧ body.length % 4 = 1 + bytes.length % 3
  | [], h => absurd rfl h
  | [a], _ => by
    refine ⟨[encChar (a / 4), encChar (a % 4 * 16)], rfl, ?_, rfl⟩
    intro ch hch
    simp only [List.mem_cons, List.not_mem_nil, or_false] at hch
    rcases hch with rfl | rfl
    · exact encChar_ne_pad _
    · exact encChar_ne_pad _
  | [a, b], _ => by
    refine ⟨[encChar (a / 4), encChar (a % 4 * 16 + b / 16), encChar (b % 16 * 4)], rfl, ?_, rfl⟩
    intro ch hch
    simp only [List.mem_cons, List.not_mem_nil, or_false] at hch
    rcases hch with rfl | rfl | rfl
    · exact encChar_ne_pad _
    · exact encChar_ne_pad _
    · exact encChar_ne_pad _
  | a :: b :: c :: rest, h => by
    have hr : rest.length % 3 ≠ 0 := by
      simp only [List.length_cons] at h
      omega
    obtain ⟨body, hb, hne, hlen⟩ := b64encode_split rest hr
    refine ⟨encChar (a / 4) :: encChar (a % 4 * 16 + b / 16) ::
        encChar (b % 16 * 4 + c / 64) :: encChar (c % 64) :: body, ?_, ?_, ?_⟩
    · have hmod : (a :: b :: c :: rest).length % 3 = rest.length % 3 := by
        simp only [List.length_cons]
        omega
      rw [hmod]
      simp only [b64encode, hb, List.cons_append]
    · intro ch hch
      simp only [List.mem_cons] at hch
      rcases hch with rfl | rfl | rfl | rfl | hch
      · exact encChar_ne_pad _
      · exact encChar_ne_pad _
      · exact encChar_ne_pad _
      · exact encChar_ne_pad _
      · exact hne ch hch
    · simp only [List.length_cons]
      omega

theorem findIdx?_body_pad (body : List Char) (n : Nat)
    (hne : ∀ ch ∈ body, ch ≠ '=') (hn : 0 < n) :
    (body ++ List.replicate n '=').findIdx? (fun x => x == '=') = some body.length := by
  induction body with
  | nil =>
    cases n with
    | zero => omega
    | succ m => simp [List.replicate_succ]
  | cons a t ih =>
    have ha : (a == '=') = false := by
      have := hne a (List.mem_cons_self a t)
      simpa using this
    have ih2 := ih (fun ch hc => hne ch (List.mem_cons_of_mem a hc))
    simp [List.cons_append, List.findIdx?_cons, ha, List.findIdx?_start_succ, ih2]

/-- C3: in strict mode, a token freshly minted by `__noidp_new_requestID`
validates: the mint-time transformation (the `'Id'` prefix and the cut at
the first `'='`, which strips the base64 padding) is inverted exactly by
the validation-time transformation (prefix removal and re-padding to a
multiple of four), so the Fernet collaborator receives back the very
string it produced and, by hypothesis `hdec` (authenticated decryption of
that token within the TTL window under the same key yields the fixed
plaintext), the result is `True`.  Hypothesis `hlen` records that the
Fernet token byte count is not a multiple of three — for the fixed
five-byte plaintext `ReqID` a Fernet token is always 73 bytes — so the
encoding does carry padding for `find` to locate. -/
theorem C3_strict_mint_validate_roundtrip (F : FernetModel) (ttl : Nat)
    (hlen : F.tokenBytes.length % 3 ≠ 0)
    (hdec : F.decrypt (fernetTokenStr F) ttl = some reqIDBytes) :
    noidp_validate_requestID false F ttl (noidp_new_requestID F) = Except.ok true := by
  obtain ⟨body, hb, hne, hblen⟩ := b64encode_split F.tokenBytes hlen
  have hnpos : 0 < 3 - F.tokenBytes.length % 3 := by omega
  have hts : fernetTokenStr F =
      String.mk (body ++ List.replicate (3 - F.tokenBytes.length % 3) '=') := by
    rw [fernetTokenStr, hb]
  have hfind : pyStrFind (fernetTokenStr F) '=' = (body.length : Int) := by
    rw [hts]
    unfold pyStrFind
    rw [show (String.mk (body ++ List.replicate (3 - F.tokenBytes.length % 3) '=')).data =
        body ++ List.replicate (3 - F.tokenBytes.length % 3) '=' from rfl]
    rw [findIdx?_body_pad body _ hne hnpos]
  have hslice : pySliceTo (fernetTokenStr F) (pyStrFind (fernetTokenStr F) '=') =
      String.mk body := by
    rw [hfind, hts]
    unfold pySliceTo
    rw [if_pos (by omega : (0 : Int) ≤ (body.length : Int))]
    rw [show (String.mk (body ++ List.replicate (3 - F.tokenBytes.length % 3) '=')).data =
        body ++ List.replicate (3 - F.tokenBytes.length % 3) '=' from rfl]
    rw [Int.toNat_natCast]
    exact congrArg String.mk (List.take_left' rfl)
  have hnew : noidp_new_requestID F = "Id" ++ String.mk body := by
    simp only [noidp_new_requestID]
    rw [hslice]
  have hdata : (noidp_new_requestID F).data = 'I' :: 'd' :: body := by
    rw [hnew, String.data_append]
    rfl
  have hstart : pyStartsWith (noidp_new_requestID F) "Id" = true := by
    unfold pyStartsWith
    rw [hdata]
    have h2 : "Id".data = ['I', 'd'] := by decide
    rw [h2]
    simp [List.isPrefixOf]
  have hdrop : pyDrop (noidp_new_requestID F) 2 = String.mk body := by
    unfold pyDrop
    rw [hdata]
    rfl
  have hrlen : (pyDrop (noidp_new_requestID F) 2).length = body.length := by
    rw [hdrop]
    rfl
  have hpadn : 4 - (pyDrop (noidp_new_requestID F) 2).length % 4 =
      3 - F.tokenBytes.length % 3 := by
    rw [hrlen]
    omega
  have hr2 : pyDrop (noidp_new_requestID F) 2 ++
      String.mk (List.replicate (4 - (pyDrop (noidp_new_requestID F) 2).length % 4) '=') =
      fernetTokenStr F := by
    rw [hpadn, hdrop, hts]
    rfl
  simp only [noidp_validate_requestID, hstart, if_true]
  rw [hr2, hdec]
  rfl

/-- Concrete 73-byte Fernet token byte string (the length Fernet produces
for the fixed five-byte plaintext). -/
def fernetTokEx : List Nat := List.replicate 73 7

/-- Concrete Fernet model whose decryption succeeds exactly on the token
string it minted. -/
def fernetEx : FernetModel :=
  { tokenBytes := fernetTokEx
    decrypt := fun s _ =>
      if s = String.mk (b64encode fernetTokEx) then some reqIDBytes else Option.none }

theorem C3_strict_mint_validate_roundtrip_witness :
    noidp_validate_requestID false fernetEx 60 (noidp_new_requestID fernetEx) = Except.ok true :=
  C3_strict_mint_validate_roundtrip fernetEx 60 (by decide)
    (by simp [fernetEx, fernetTokenStr, fernetTokEx])

/-- C4 counterexample: with the `DEBUG` environment variable set (a truthy
`os.getenv('DEBUG')`), a token with the wrong prefix makes strict-mode
validation re-raise the caught exception instead of returning false, so
the claim's unconditional "never raises an exception to the caller" fails
on the code. -/
theorem C4_counterexample :
    pyStartsWith "bogus" "Id" = false ∧
    noidp_validate_requestID true fernetEx 60 "bogus" = Except.error () := by
  constructor
  · decide
  · have hb : pyStartsWith "bogus" "Id" = false := by decide
    simp [noidp_validate_requestID, hb]

/-- C4 (amended): with the DEBUG flag unset — its default, `DEBUG =
os.getenv('DEBUG', False)` — strict-mode validation of every malformed
token (wrong `'Id'` prefix, or a payload whose re-padded form fails
authenticated decryption: undecodable base64, corrupted ciphertext or
MAC, or elapsed TTL, all raising `InvalidToken`, modelled as `decrypt`
returning `Option.none`) returns `False` and never raises: the result is
`Except.ok false`, never an `Except.error`. -/
theorem C4_malformed_validate_false (F : FernetModel) (ttl : Nat) (reqid : String)
    (hbad : pyStartsWith reqid "Id" = false ∨
      F.decrypt (pyDrop reqid 2 ++
        String.mk (List.replicate (4 - (pyDrop reqid 2).length % 4) '=')) ttl = Option.none) :
    noidp_validate_requestID false F ttl reqid = Except.ok false := by
  cases hs : pyStartsWith reqid "Id" with
  | false => simp [noidp_validate_requestID, hs]
  | true =>
    rcases hbad with hb | hb
    · rw [hs] at hb
      cases hb
    · simp [noidp_validate_requestID, hs, hb]

theorem C4_malformed_validate_false_witness :
    noidp_validate_requestID false fernetEx 60 "bogus" = Except.ok false :=
  C4_malformed_validate_false fernetEx 60 "bogus" (Or.inl (by decide))
